import Mathlib

/-!
Verification of the viewport / dmabuf frame-handoff machinery of `bevy-gtk`.

The development shallowly embeds the per-viewport state machine of
`src/viewport/mod.rs` (namespace `Vp`), the older snapshot of the same
machinery in `src/render/viewport.rs` (namespace `RVp`), the dmabuf texture
exporter of `src/render/dmabuf.rs` (namespace `Dm`), the reference-counted
drop semantics of the wgpu texture wrapping a dmabuf (namespace `Tex`), and
the housekeeping teardown scan (namespace `Hk`).

Machine integers (`u32`) are modelled as `Nat` with explicit wrap-around
where the Rust code performs u32 arithmetic that can overflow.
-/

namespace BevyGtk

/-- Value of `u32::MAX` in Rust, the sentinel used for `old_widget_size`. -/
def u32Max : Nat := 4294967295

/-- Wrap-around of u32 arithmetic (release-mode Rust semantics). -/
def wrap32 (n : Nat) : Nat := n % 4294967296

/-- A `DmabufTexture` as the viewport machinery sees it: an identity plus the
pixel dimensions it was created with (`DmabufTexture::new(_, _, width,
height, TEXTURE_FORMAT)`). -/
structure Dmabuf where
  id : Nat
  width : Nat
  height : Nat
deriving DecidableEq, Repr

/-- Entry of `RenderAssets<GpuImage>`: the render-target registry entry built
in `set_target_images` from the back-buffer texture (its `size` field is
`texture.size()`). -/
structure GpuImage where
  size : Nat × Nat
deriving DecidableEq, Repr

/-- Keyed insert of `RenderAssets::insert`: last-writer-wins per image
handle. -/
def insertImage (key : Nat) (v : GpuImage) :
    List (Nat × GpuImage) → List (Nat × GpuImage)
  | [] => [(key, v)]
  | (k, v') :: rest =>
    if k = key then (key, v) :: rest else (k, v') :: insertImage key v rest

/-- The store operation of `atomicbox::AtomicOptionBox` as used by
`present_frames`: the slot content is replaced, a previously stored box is
dropped. -/
def boxStore (_slot : Option Dmabuf) (v : Dmabuf) : Option Dmabuf := some v

/-- The take operation of `atomicbox::AtomicOptionBox` as used by the GTK
tick callback in `WidgetFactory::make`: returns the content and empties the
slot. -/
def boxTake (slot : Option Dmabuf) : Option Dmabuf × Option Dmabuf :=
  (slot, none)

namespace Vp

/-- The render-world viewport state of `src/viewport/mod.rs`
(`RenderViewport`), together with the value currently held by the shared
`widget_size` atomics and the shared `next_dmabuf` slot. -/
structure RenderViewport where
  imageHandle : Nat
  widgetSize : Nat × Nat
  nextDmabuf : Option Dmabuf
  backBuffer : Option Dmabuf
  oldWidgetSize : Nat × Nat
  queuedDmabuf : Option Dmabuf
deriving DecidableEq, Repr

/-- Function `texture_size` of `src/viewport/mod.rs`:
`(width.max(1), height.max(1))`. -/
def texture_size (width height : Nat) : Nat × Nat := (max width 1, max height 1)

/-- The state of a freshly created viewport as seen by the render world:
`GtkViewports::create` initialises the size atomics to `(0, 0)` and the slot
to none, and `RenderViewport::extract_component` initialises
`old_widget_size` to `(u32::MAX, u32::MAX)` with no back buffer and no
queued dmabuf. -/
def vpInit : RenderViewport :=
  { imageHandle := 0
    widgetSize := (0, 0)
    nextDmabuf := none
    backBuffer := none
    oldWidgetSize := (u32Max, u32Max)
    queuedDmabuf := none }

/-- Per-viewport body of `set_target_images` in `src/viewport/mod.rs`,
parameterised by the allocator behaviour of `DmabufTexture::new`. The
`Except` error models the panic of
`.expect("failed to create dmabuf texture")`: an allocation `Err` aborts the
whole system, it is not handled per-viewport. Returns the updated viewport,
the next fresh texture id, and the number of dmabuf textures created. -/
def set_target_images_one (alloc : Nat → Nat → Nat → Except String Dmabuf)
    (nextId : Nat) (vp : RenderViewport) :
    Except String (RenderViewport × Nat × Nat) :=
  let (newWidth, newHeight) := vp.widgetSize
  let (oldWidth, oldHeight) := vp.oldWidgetSize
  if newWidth ≠ oldWidth ∨ newHeight ≠ oldHeight then
    let (texWidth, texHeight) := texture_size newWidth newHeight
    match alloc nextId texWidth texHeight with
    | .error e => .error e
    | .ok dmabuf =>
      .ok ({ vp with
              oldWidgetSize := (newWidth, newHeight)
              backBuffer := some dmabuf
              queuedDmabuf := some dmabuf },
           nextId + 1, 1)
  else
    .ok (vp, nextId, 0)

/-- Allocator behaviour of `DmabufTexture::new` when creation succeeds: a
fresh dmabuf texture with the requested dimensions. -/
def okAlloc (id width height : Nat) : Except String Dmabuf :=
  .ok ⟨id, width, height⟩

/-- Allocator behaviour of `DmabufTexture::new` when creation fails (for
example a negotiation or allocation error inside `create_dmabuf_texture`). -/
def failingAlloc (_id _width _height : Nat) : Except String Dmabuf :=
  .error "failed to create dmabuf texture"

/-- The per-viewport `set_target_images` body specialised to a succeeding
allocator; `set_target_images_one` with `okAlloc` never reaches the panic
branch and computes this. -/
def set_target_images_ok (nextId : Nat) (vp : RenderViewport) :
    RenderViewport × Nat × Nat :=
  let (newWidth, newHeight) := vp.widgetSize
  let (oldWidth, oldHeight) := vp.oldWidgetSize
  if newWidth ≠ oldWidth ∨ newHeight ≠ oldHeight then
    let (texWidth, texHeight) := texture_size newWidth newHeight
    ({ vp with
        oldWidgetSize := (newWidth, newHeight)
        backBuffer := some ⟨nextId, texWidth, texHeight⟩
        queuedDmabuf := some ⟨nextId, texWidth, texHeight⟩ },
     nextId + 1, 1)
  else
    (vp, nextId, 0)

/-- Tail of the `set_target_images` loop body: if the viewport has a back
buffer, build a `GpuImage` from it and insert it into
`RenderAssets<GpuImage>` under the viewport's image handle. -/
def update_gpu_images (vp : RenderViewport) (reg : List (Nat × GpuImage)) :
    List (Nat × GpuImage) :=
  match vp.backBuffer with
  | some bb => insertImage vp.imageHandle ⟨(bb.width, bb.height)⟩ reg
  | none => reg

/-- The whole `set_target_images` system of `src/viewport/mod.rs`: iterate
over all viewports in query order; an allocation failure panics out of the
system (no viewport state survives, later viewports are not processed). -/
def set_target_images (alloc : Nat → Nat → Nat → Except String Dmabuf) :
    List RenderViewport → Nat → List (Nat × GpuImage) →
    Except String (List RenderViewport × Nat × List (Nat × GpuImage))
  | [], nextId, reg => .ok ([], nextId, reg)
  | vp :: rest, nextId, reg =>
    match set_target_images_one alloc nextId vp with
    | .error e => .error e
    | .ok (vp', nextId', _) =>
      match set_target_images alloc rest nextId' (update_gpu_images vp' reg) with
      | .error e => .error e
      | .ok (rest', nextId'', reg') => .ok (vp' :: rest', nextId'', reg')

/-- Per-viewport body of `present_frames` in `src/viewport/mod.rs`: if a
queued dmabuf exists (the back buffer created this pass), store it into the
shared `next_dmabuf` slot; otherwise do nothing. The boolean reports whether
a store into the ready slot happened. -/
def present_frames_one (vp : RenderViewport) : RenderViewport × Bool :=
  match vp.queuedDmabuf with
  | some dmabuf =>
    ({ vp with queuedDmabuf := none, nextDmabuf := boxStore vp.nextDmabuf dmabuf },
     true)
  | none => (vp, false)

/-- The take at the top of the GTK tick callback in `WidgetFactory::make`:
take the latest ready dmabuf out of the shared slot (leaving it empty), if
any. -/
def tick_take (vp : RenderViewport) : Option Dmabuf × RenderViewport :=
  let (out, slot) := boxTake vp.nextDmabuf
  (out, { vp with nextDmabuf := slot })

/-- State of one viewport across the two scheduling domains, for reasoning
about the order of the `Render`-schedule phases: the viewport itself, the
fresh-id counter for created dmabufs, the set of dmabuf ids whose render pass
has completed, and the ids the GTK tick callback has taken from the ready
slot so far. -/
structure FrameState where
  vp : RenderViewport
  nextId : Nat
  renderedIds : List Nat
  takenIds : List Nat
deriving DecidableEq, Repr

/-- Phase one of a render pass, `set_target_images.after(RenderSystems::ExtractCommands)`:
the render world reads the widget-size atomics (the widget has stored `size`)
and runs the resize check with a succeeding allocator. -/
def phase_set_target (size : Nat × Nat) (s : FrameState) : FrameState :=
  let (vp', nextId', _) := set_target_images_ok s.nextId { s.vp with widgetSize := size }
  { s with vp := vp', nextId := nextId' }

/-- Modelled from the spec: between `ExtractCommands` and
`RenderSystems::Render` the rendering subsystem (an external collaborator,
`bevy_render`) draws into the registered render target, which is the current
back buffer; its render pass completes before `present_frames` runs. This
marks the back buffer's dmabuf as rendered. -/
def phase_render (s : FrameState) : FrameState :=
  match s.vp.backBuffer with
  | some bb => { s with renderedIds := bb.id :: s.renderedIds }
  | none => s

/-- Phase three of a render pass, `present_frames.after(RenderSystems::Render)`. -/
def phase_present (s : FrameState) : FrameState :=
  { s with vp := (present_frames_one s.vp).1 }

/-- One full iteration of the `Render` schedule for this viewport, with the
widget reporting `size`: resize check, render pass, then frame
presentation, in the scheduling order fixed by `plugin`. -/
def renderFrame (size : Nat × Nat) (s : FrameState) : FrameState :=
  phase_present (phase_render (phase_set_target size s))

/-- One GTK display tick for this viewport: the tick callback takes the
latest ready dmabuf from the shared slot, if any. -/
def displayTick (s : FrameState) : FrameState :=
  match tick_take s.vp with
  | (some dmabuf, vp') => { s with vp := vp', takenIds := dmabuf.id :: s.takenIds }
  | (none, vp') => { s with vp := vp' }

/-- An event of the two independently scheduled domains: either one render
frame (with the widget size the atomics hold during it) or one display
tick. -/
inductive Event where
  | frame (size : Nat × Nat)
  | tick
deriving DecidableEq, Repr

/-- Interleaved execution of render frames and display ticks. -/
def stepEvent (s : FrameState) : Event → FrameState
  | .frame size => renderFrame size s
  | .tick => displayTick s

/-- Run a schedule of events from a state. -/
def runEvents (events : List Event) (s : FrameState) : FrameState :=
  events.foldl stepEvent s

/-- The state of a freshly created viewport, before any frame or tick. -/
def frameInit : FrameState :=
  { vp := vpInit, nextId := 0, renderedIds := [], takenIds := [] }

/-- Invariant tying the ready slot, the queued dmabuf and the render log
together: anything in the ready slot or already taken by the display side
has completed its render pass, and a queued dmabuf is exactly the current
back buffer. -/
def SlotInv (s : FrameState) : Prop :=
  (∀ d, s.vp.nextDmabuf = some d → d.id ∈ s.renderedIds) ∧
  (∀ d, s.vp.queuedDmabuf = some d → s.vp.backBuffer = some d) ∧
  (∀ i ∈ s.takenIds, i ∈ s.renderedIds)

end Vp

namespace RVp

/-- Viewport state of the older snapshot `src/render/viewport.rs`
(`RenderViewport` there), as read and written by its `set_target_images`. -/
structure RState where
  imageHandle : Nat
  widgetSize : Nat × Nat
  oldWidgetSize : Nat × Nat
  backBuffer : Option Dmabuf
  queuedDmabuf : Option Dmabuf
deriving DecidableEq, Repr

/-- Rust `u32::div_ceil`. -/
def div_ceil (a b : Nat) : Nat := (a + b - 1) / b

/-- Function `read_size` of `src/render/viewport.rs`: clamp each dimension
to at least 1, then round up to a multiple of 64 (the u32 multiplication
wraps). -/
def read_size (width height : Nat) : Nat × Nat :=
  let width := max width 1
  let height := max height 1
  (wrap32 (div_ceil width 64 * 64), wrap32 (div_ceil height 64 * 64))

/-- The state of a freshly created viewport of `src/render/viewport.rs`:
`GtkViewports::create` initialises the size atomics to `(0, 0)` and
`extract_component` sets `old_widget_size := (u32::MAX, u32::MAX)` with no
back buffer and no queued dmabuf. -/
def rInit : RState :=
  { imageHandle := 0
    widgetSize := (0, 0)
    oldWidgetSize := (u32Max, u32Max)
    backBuffer := none
    queuedDmabuf := none }

/-- Per-viewport body of `set_target_images` in `src/render/viewport.rs`
(succeeding allocator): compare the raw atomically-read size against
`old_widget_size`; on change, record the raw size, round each dimension with
`new.max(1).div_ceil(64) * 64`, and create a dmabuf texture of that rounded
size as the new back buffer and queued dmabuf. Returns the updated state,
the next fresh texture id, and the number of dmabuf textures created. -/
def set_target_images_one (nextId : Nat) (s : RState) : RState × Nat × Nat :=
  let (newWidth, newHeight) := s.widgetSize
  let (oldWidth, oldHeight) := s.oldWidgetSize
  if newWidth ≠ oldWidth ∨ newHeight ≠ oldHeight then
    let texWidth := wrap32 (div_ceil (max newWidth 1) 64 * 64)
    let texHeight := wrap32 (div_ceil (max newHeight 1) 64 * 64)
    let dmabuf : Dmabuf := ⟨nextId, texWidth, texHeight⟩
    ({ s with
        oldWidgetSize := (newWidth, newHeight)
        backBuffer := some dmabuf
        queuedDmabuf := some dmabuf },
     nextId + 1, 1)
  else
    (s, nextId, 0)

/-- Tail of the `set_target_images` loop body in `src/render/viewport.rs`:
if the viewport has a back buffer, insert a `GpuImage` whose size is the
back-buffer texture's size into `RenderAssets<GpuImage>` under the
viewport's image handle. -/
def update_gpu_images (s : RState) (reg : List (Nat × GpuImage)) :
    List (Nat × GpuImage) :=
  match s.backBuffer with
  | some bb => insertImage s.imageHandle ⟨(bb.width, bb.height)⟩ reg
  | none => reg

end RVp

namespace Tex

/-- The Vulkan-side resources owned by a dmabuf texture, as touched by the
drop callback registered in `vk_texture_to_wgpu` of `src/render/dmabuf.rs`. -/
structure VkCleanup where
  imageDestroyed : Bool
  memoryFreed : Bool
deriving DecidableEq, Repr

/-- The drop callback registered in `vk_texture_to_wgpu`: destroy the Vulkan
image and free the device memory. -/
def drop_callback (_c : VkCleanup) : VkCleanup := ⟨true, true⟩

/-- The shared (reference-counted) wgpu texture produced by
`texture_from_raw` with the drop callback attached: wgpu runs the callback
exactly when the last strong reference to the texture is released. A
`DmabufTexture` holds one such reference (its `wgpu_texture` field); every
GPU-side wrapper derived via `wgpu_texture().clone()` holds another. -/
structure SharedTexture where
  refCount : Nat
  cleanup : VkCleanup
deriving DecidableEq, Repr

/-- Creation in `vk_texture_to_wgpu`: one strong reference (held by the
returned `DmabufTexture`), cleanup not yet run. -/
def texture_from_raw : SharedTexture := ⟨1, ⟨false, false⟩⟩

/-- Cloning the wgpu texture (`dmabuf.wgpu_texture().clone()` in
`set_target_images`, or `Clone` on `DmabufTexture` itself): one more strong
reference to the same underlying image and memory. -/
def cloneRef (t : SharedTexture) : SharedTexture :=
  { t with refCount := t.refCount + 1 }

/-- Dropping one holder (a `DmabufTexture` or a derived wrapper): the drop
callback runs only when this was the last strong reference. -/
def releaseRef (t : SharedTexture) : SharedTexture :=
  if t.refCount = 1 then ⟨0, drop_callback t.cleanup⟩
  else { t with refCount := t.refCount - 1 }

/-- Dropping `k` of the holders, one after the other (the drops are
symmetric, so any order of dropping the `DmabufTexture` and its derived
wrappers is this function). -/
def releaseN : Nat → SharedTexture → SharedTexture
  | 0, t => t
  | k + 1, t => releaseN k (releaseRef t)

end Tex

namespace Hk

/-- A spawned `ViewportPrivate` entity as seen by
`despawn_destroyed_viewports` in `src/viewport/mod.rs`: its entity id, its
image handle (the key of its registry entry), and
`Arc::strong_count(&viewport.widget_alive)`. `GtkViewports::create` leaves
this count at 2 (the entity's clone plus the widget-side holder), and the
widget's destroy signal drops the widget-side holder. -/
structure ViewportEntity where
  entity : Nat
  imageHandle : Nat
  widgetAliveCount : Nat
deriving DecidableEq, Repr

/-- The `connect_destroy` handler installed by `WidgetFactory::make`:
dropping the widget-side holder of `widget_alive` decrements the strong
count. -/
def drop_widget_holder (vp : ViewportEntity) : ViewportEntity :=
  { vp with widgetAliveCount := vp.widgetAliveCount - 1 }

/-- Main-world state scanned by housekeeping: the live viewport entities and
the render-target registry. -/
structure MainWorld where
  viewports : List ViewportEntity
  gpuImages : List (Nat × GpuImage)
deriving DecidableEq, Repr

/-- System `despawn_destroyed_viewports` of `src/viewport/mod.rs`: despawn
every viewport whose `widget_alive` strong count is exactly 1 (only the
entity's own clone remains, the widget-side holder is gone). -/
def despawn_destroyed_viewports (vps : List ViewportEntity) :
    List ViewportEntity :=
  vps.filter (fun vp => vp.widgetAliveCount != 1)

/-- Modelled from the spec: removal of the despawned viewport's registry
entry. The eviction of the `GpuImage` entry once its owning viewport (and
with it the last strong holder of the image handle) is gone happens inside
`bevy_render`'s asset machinery, which is not part of this repository's
`src/`; the spec states that the viewport's state and its registry entry are
removed together, one entry per live viewport. -/
def cleanup_registry (vps : List ViewportEntity)
    (reg : List (Nat × GpuImage)) : List (Nat × GpuImage) :=
  reg.filter (fun e => vps.any (fun vp => vp.imageHandle == e.1))

/-- One housekeeping scan: despawn dead viewports, then drop the registry
entries that no longer have an owning viewport. -/
def housekeep (w : MainWorld) : MainWorld :=
  let vps := despawn_destroyed_viewports w.viewports
  { viewports := vps, gpuImages := cleanup_registry vps w.gpuImages }

end Hk

namespace Dm

/-- The wgpu texture formats relevant to `format_to_fourcc` in
`src/render/dmabuf.rs` (a sample of the `wgpu::TextureFormat` variants; the
source maps every format other than `Rgba8Unorm` and `Rgba8UnormSrgb` to
`None` through its wildcard arm). -/
inductive TextureFormat where
  | r8Unorm | r8Snorm | r8Uint | r8Sint
  | rg8Unorm | rg8Snorm
  | rgba8Unorm | rgba8UnormSrgb | rgba8Snorm | rgba8Uint | rgba8Sint
  | bgra8Unorm | bgra8UnormSrgb
  | rgb10a2Unorm
  | rg16Float | rgba16Float | rgba32Float
  | depth32Float | depth24PlusStencil8
deriving DecidableEq, Repr

/-- The DRM fourcc codes produced by `format_to_fourcc`. -/
inductive DrmFourcc where
  | abgr8888
deriving DecidableEq, Repr

/-- Function `format_to_fourcc` of `src/render/dmabuf.rs`: only 8-bit RGBA
(linear or sRGB) maps to a fourcc; everything else is `None`. -/
def format_to_fourcc : TextureFormat → Option DrmFourcc
  | .rgba8Unorm => some .abgr8888
  | .rgba8UnormSrgb => some .abgr8888
  | _ => none

/-- Count of live Vulkan resources created by the exporter, for observing
that a failing `create` leaks nothing. -/
structure GpuLedger where
  vkImages : Nat
  vkMemories : Nat
deriving DecidableEq, Repr

/-- Failure modes of `create_dmabuf_texture`: the unsupported-format error
(`ok_or_else` on `format_to_fourcc`), the no-compatible-memory-type error of
`allocate_memory`, and the driver-bug panic of `create_image` when the
chosen modifier is not in the queried list. -/
inductive CreateError where
  | unsupportedFormat (format : TextureFormat)
  | noCompatibleMemoryType
  | driverBugPanic
deriving DecidableEq, Repr

/-- One entry of the DRM format modifier list queried from the device. -/
structure DrmModifierInfo where
  modifier : Nat
  planeCount : Nat
deriving DecidableEq, Repr

/-- Behaviour of the Vulkan device (an external collaborator) during
`create_dmabuf_texture`: the modifier list it reports for the format, the
modifier it actually chooses at image creation, and whether any memory type
is host-visible and host-coherent. -/
structure VkDevice where
  drmModifierInfos : List DrmModifierInfo
  chosenModifier : Nat
  hasHostVisibleCoherentType : Bool
deriving DecidableEq, Repr

/-- Function `create_image` of `src/render/dmabuf.rs`: create the Vulkan
image (one live image in the ledger), then look the driver-chosen modifier
up in the queried list; the source panics if it is absent. -/
def create_image (dev : VkDevice) (ledger : GpuLedger) :
    Except CreateError DrmModifierInfo × GpuLedger :=
  let ledger' := { ledger with vkImages := ledger.vkImages + 1 }
  match dev.drmModifierInfos.find? (fun info => info.modifier == dev.chosenModifier) with
  | some info => (.ok info, ledger')
  | none => (.error .driverBugPanic, ledger')

/-- Function `allocate_memory` of `src/render/dmabuf.rs`: fails with an
explicit error when no memory type is host-visible and host-coherent,
otherwise allocates one exportable device memory. -/
def allocate_memory (dev : VkDevice) (ledger : GpuLedger) :
    Except CreateError Unit × GpuLedger :=
  if dev.hasHostVisibleCoherentType then
    (.ok (), { ledger with vkMemories := ledger.vkMemories + 1 })
  else
    (.error .noCompatibleMemoryType, ledger)

/-- The result of a successful `create_dmabuf_texture`. -/
structure DmabufTexture where
  width : Nat
  height : Nat
  format : TextureFormat
  fourcc : DrmFourcc
  modifier : Nat
  planeCount : Nat
deriving DecidableEq, Repr

/-- Function `create_dmabuf_texture` of `src/render/dmabuf.rs`, with the
ledger of created GPU resources threaded through: the format is mapped to a
fourcc first (`ok_or_else`, before any resource is created), then the image
is created, then the memory is allocated and bound. -/
def create_dmabuf_texture (dev : VkDevice) (width height : Nat)
    (format : TextureFormat) (ledger : GpuLedger) :
    Except CreateError DmabufTexture × GpuLedger :=
  match format_to_fourcc format with
  | none => (.error (.unsupportedFormat format), ledger)
  | some fourcc =>
    match create_image dev ledger with
    | (.error e, ledger1) => (.error e, ledger1)
    | (.ok info, ledger1) =>
      match allocate_memory dev ledger1 with
      | (.error e, ledger2) => (.error e, ledger2)
      | (.ok _, ledger2) =>
        (.ok { width := width
               height := height
               format := format
               fourcc := fourcc
               modifier := info.modifier
               planeCount := info.planeCount },
         ledger2)

end Dm

namespace Vp

/-- Sanity lemma: with a succeeding allocator, the `set_target_images` body
never reaches the panic branch and computes `set_target_images_ok`. -/
lemma set_target_images_one_okAlloc (nextId : Nat) (vp : RenderViewport) :
    set_target_images_one okAlloc nextId vp =
      .ok (set_target_images_ok nextId vp) := by
  obtain ⟨ih, ⟨w1, w2⟩, nd, bb, ⟨o1, o2⟩, qd⟩ := vp
  by_cases hc : w1 ≠ o1 ∨ w2 ≠ o2 <;>
    simp [set_target_images_one, set_target_images_ok, okAlloc, texture_size, hc]

lemma slotInv_init : SlotInv frameInit := by
  refine ⟨?_, ?_, ?_⟩ <;> simp [SlotInv, frameInit, vpInit]

lemma slotInv_set_target (size : Nat × Nat) {s : FrameState} (h : SlotInv s) :
    SlotInv (phase_set_target size s) := by
  obtain ⟨h1, h2, h3⟩ := h
  obtain ⟨⟨ih, ⟨w1, w2⟩, nd, bb, ⟨o1, o2⟩, qd⟩, nextId, rendered, taken⟩ := s
  obtain ⟨z1, z2⟩ := size
  simp only [SlotInv] at *
  by_cases hc : z1 ≠ o1 ∨ z2 ≠ o2 <;>
    simp_all [phase_set_target, set_target_images_ok, texture_size, hc]

lemma slotInv_render_present {s : FrameState} (h : SlotInv s) :
    SlotInv (phase_present (phase_render s)) := by
  obtain ⟨h1, h2, h3⟩ := h
  obtain ⟨⟨ih, ws, nd, bb, ows, qd⟩, nextId, rendered, taken⟩ := s
  cases hqd : qd with
  | none =>
    cases bb <;>
      simp_all [SlotInv, phase_render, phase_present, present_frames_one, boxStore]
  | some d =>
    have hbb : bb = some d := h2 d (by simp [hqd])
    subst hbb hqd
    refine ⟨?_, ?_, ?_⟩ <;>
      simp_all [SlotInv, phase_render, phase_present, present_frames_one, boxStore]

lemma slotInv_tick {s : FrameState} (h : SlotInv s) : SlotInv (displayTick s) := by
  obtain ⟨h1, h2, h3⟩ := h
  obtain ⟨⟨ih, ws, nd, bb, ows, qd⟩, nextId, rendered, taken⟩ := s
  cases hnd : nd with
  | none => simp_all [SlotInv, displayTick, tick_take, boxTake]
  | some d =>
    refine ⟨?_, ?_, ?_⟩ <;> simp_all [SlotInv, displayTick, tick_take, boxTake]

lemma slotInv_step {s : FrameState} (e : Event) (h : SlotInv s) :
    SlotInv (stepEvent s e) := by
  cases e with
  | frame size => exact slotInv_render_present (slotInv_set_target size h)
  | tick => exact slotInv_tick h

lemma slotInv_run (events : List Event) {s : FrameState} (h : SlotInv s) :
    SlotInv (runEvents events s) := by
  induction events generalizing s with
  | nil => exact h
  | cons e rest ih => exact ih (slotInv_step e h)

end Vp

namespace Tex

lemma releaseN_keeps {k n : Nat} (c : VkCleanup) (h : k < n) :
    releaseN k ⟨n, c⟩ = ⟨n - k, c⟩ := by
  induction k generalizing n with
  | zero => simp [releaseN]
  | succ k ih =>
    have hn : n ≠ 1 := by omega
    have hrel : releaseRef ⟨n, c⟩ = ⟨n - 1, c⟩ := by simp [releaseRef, hn]
    rw [releaseN, hrel, ih (by omega)]
    congr 1
    omega

lemma releaseN_frees (n : Nat) (h : 1 ≤ n) :
    releaseN n ⟨n, ⟨false, false⟩⟩ = ⟨0, ⟨true, true⟩⟩ := by
  induction n with
  | zero => omega
  | succ m ih =>
    cases m with
    | zero => simp [releaseN, releaseRef, drop_callback]
    | succ m' =>
      have hrel : releaseRef ⟨m' + 2, (⟨false, false⟩ : VkCleanup)⟩ =
          ⟨m' + 1, ⟨false, false⟩⟩ := by
        simp [releaseRef]
      rw [releaseN, hrel, ih (by omega)]

end Tex

/-- Claim C1, counterexample: with two viewports needing reallocation and a
failing allocator, `set_target_images` aborts with the panic of the
`expect` in `src/viewport/mod.rs` — there is no resulting world state at
all, so the failure is not reported-and-contained per viewport, the render
loop does not survive, and the second viewport is never processed. -/
theorem c1_alloc_failure_cex :
    Vp.set_target_images Vp.failingAlloc
      [{ Vp.vpInit with widgetSize := (10, 10) },
       { Vp.vpInit with imageHandle := 1, widgetSize := (20, 20) }] 0 [] =
      Except.error "failed to create dmabuf texture" := rfl

/-- Claim C1, amended: if creating the dmabuf texture fails during a
viewport's reallocation step, the whole `set_target_images` system aborts
with that error (the render loop panics); viewports later in iteration
order are not processed and no per-viewport containment happens. -/
theorem c1_alloc_failure_panics_system
    (alloc : Nat → Nat → Nat → Except String Dmabuf)
    (vp : Vp.RenderViewport) (rest : List Vp.RenderViewport)
    (nextId : Nat) (reg : List (Nat × GpuImage)) (e : String)
    (hchange : vp.widgetSize ≠ vp.oldWidgetSize)
    (hfail : alloc nextId (max vp.widgetSize.1 1) (max vp.widgetSize.2 1) =
      .error e) :
    Vp.set_target_images alloc (vp :: rest) nextId reg = Except.error e := by
  obtain ⟨ih, ⟨w1, w2⟩, nd, bb, ⟨o1, o2⟩, qd⟩ := vp
  simp only at hchange hfail
  have hc : w1 ≠ o1 ∨ w2 ≠ o2 := by
    by_contra hcon
    push_neg at hcon
    exact hchange (by rw [hcon.1, hcon.2])
  simp only [Vp.set_target_images, Vp.set_target_images_one, Vp.texture_size]
  rw [if_pos hc, hfail]

/-- Claim C1, witness for the amended theorem: a concrete viewport whose
reallocation fails aborts the whole system. -/
theorem c1_alloc_failure_panics_system_w :
    Vp.set_target_images Vp.failingAlloc
      [{ Vp.vpInit with widgetSize := (7, 9) }] 0 [] =
      Except.error "failed to create dmabuf texture" :=
  c1_alloc_failure_panics_system Vp.failingAlloc
    { Vp.vpInit with widgetSize := (7, 9) } [] 0 [] _ (by decide) rfl

/-- Claim C2, counterexample: two consecutive render passes at the same
widget size. The pass right after the reallocation stores into the ready
slot, but the following pass stores nothing — so the ready slot does not
receive a value once per render pass, only on passes that created a new
back buffer. -/
theorem c2_store_every_pass_cex :
    (Vp.present_frames_one (Vp.phase_set_target (100, 50) Vp.frameInit).vp).2 =
      true ∧
    (Vp.present_frames_one
      (Vp.phase_set_target (100, 50)
        (Vp.renderFrame (100, 50) Vp.frameInit)).vp).2 = false := by
  decide

/-- Claim C2, amended: after the render pass, `present_frames` stores the
back buffer into the ready slot exactly when this pass's resize check
created a new back buffer (left a queued dmabuf); on a pass whose reported
size is unchanged nothing is stored and the slot is left as it was. -/
theorem c2_store_only_after_realloc (s : Vp.FrameState) (size : Nat × Nat)
    (hq : s.vp.queuedDmabuf = none) :
    ((Vp.present_frames_one (Vp.phase_set_target size s).vp).2 = true ↔
      size ≠ s.vp.oldWidgetSize) ∧
    (size ≠ s.vp.oldWidgetSize →
      (Vp.present_frames_one (Vp.phase_set_target size s).vp).1.nextDmabuf =
        some ⟨s.nextId, max size.1 1, max size.2 1⟩) ∧
    (size = s.vp.oldWidgetSize →
      Vp.present_frames_one (Vp.phase_set_target size s).vp =
        ((Vp.phase_set_target size s).vp, false)) := by
  obtain ⟨⟨ih, ⟨w1, w2⟩, nd, bb, ⟨o1, o2⟩, qd⟩, nextId, rendered, taken⟩ := s
  simp only at hq
  subst hq
  obtain ⟨z1, z2⟩ := size
  by_cases h1 : z1 = o1 <;> by_cases h2 : z2 = o2 <;>
    simp_all [Vp.phase_set_target, Vp.set_target_images_ok, Vp.texture_size,
      Vp.present_frames_one, boxStore, Prod.mk.injEq]

/-- Claim C2, witness for the amended theorem at a fresh viewport reporting
size (5, 5). -/
theorem c2_store_only_after_realloc_w :
    ((Vp.present_frames_one (Vp.phase_set_target (5, 5) Vp.frameInit).vp).2 =
        true ↔ (5, 5) ≠ Vp.frameInit.vp.oldWidgetSize) ∧
    ((5, 5) ≠ Vp.frameInit.vp.oldWidgetSize →
      (Vp.present_frames_one
        (Vp.phase_set_target (5, 5) Vp.frameInit).vp).1.nextDmabuf =
        some ⟨Vp.frameInit.nextId, max (5, 5).1 1, max (5, 5).2 1⟩) ∧
    ((5, 5) = Vp.frameInit.vp.oldWidgetSize →
      Vp.present_frames_one (Vp.phase_set_target (5, 5) Vp.frameInit).vp =
        ((Vp.phase_set_target (5, 5) Vp.frameInit).vp, false)) :=
  c2_store_only_after_realloc Vp.frameInit (5, 5) rfl

/-- Claim C3, counterexample: reported sizes (1, 1) and then (2, 2) round
to the same allocation-safe size (64, 64), yet the second resize check
still reallocates — the code compares the raw reported size, not the
rounded one, so "skip whenever the rounded size is unchanged" fails. -/
theorem c3_rounded_compare_cex :
    RVp.read_size 1 1 = RVp.read_size 2 2 ∧
    (RVp.set_target_images_one 1
      { (RVp.set_target_images_one 0
          { RVp.rInit with widgetSize := (1, 1) }).1 with
            widgetSize := (2, 2) }).2.2 = 1 := by
  decide

/-- Claim C3, amended: the resize check compares the raw atomically-read
size to the previously recorded raw size and skips reallocation exactly
when the raw size is unchanged; rounding applies only to the dimensions of
the newly created texture. Idempotence holds: running the check twice in a
row with the same reported size performs one reallocation on the first call
(exactly when the raw size changed) and zero on the second call. -/
theorem c3_raw_compare_idempotence (s : RVp.RState) (size : Nat × Nat)
    (nextId : Nat) :
    (RVp.set_target_images_one
        (RVp.set_target_images_one nextId { s with widgetSize := size }).2.1
        { (RVp.set_target_images_one nextId
            { s with widgetSize := size }).1 with
              widgetSize := size }).2.2 = 0 ∧
    (RVp.set_target_images_one nextId { s with widgetSize := size }).2.2 =
      (if size = s.oldWidgetSize then 0 else 1) := by
  obtain ⟨ih, ⟨w1, w2⟩, ⟨o1, o2⟩, bb, qd⟩ := s
  obtain ⟨z1, z2⟩ := size
  by_cases h1 : z1 = o1 <;> by_cases h2 : z2 = o2 <;>
    simp_all [RVp.set_target_images_one, Prod.mk.injEq]

/-- Claim C4: single-slot overwrite-latest semantics of the ready slot. If
the render domain presents twice (first with queued dmabuf `d1`, then with
queued dmabuf `d2`) before the display tick takes once, the slot holds `d1`
after the first store, holds only `d2` after the second (the first value is
replaced, no error is possible — the store is total), and the tick take
observes exactly `d2`. -/
theorem c4_overwrite_latest (vp : Vp.RenderViewport) (d1 d2 : Dmabuf)
    (h1 : vp.queuedDmabuf = some d1) :
    (Vp.present_frames_one vp).1.nextDmabuf = some d1 ∧
    (Vp.present_frames_one
      { (Vp.present_frames_one vp).1 with
          queuedDmabuf := some d2 }).1.nextDmabuf = some d2 ∧
    (Vp.tick_take (Vp.present_frames_one
      { (Vp.present_frames_one vp).1 with
          queuedDmabuf := some d2 }).1).1 = some d2 := by
  simp [Vp.present_frames_one, h1, boxStore, Vp.tick_take, boxTake]

/-- Claim C4, witness at concrete dmabufs. -/
theorem c4_overwrite_latest_w :
    (Vp.present_frames_one
      { Vp.vpInit with queuedDmabuf := some ⟨0, 64, 64⟩ }).1.nextDmabuf =
      some ⟨0, 64, 64⟩ ∧
    (Vp.present_frames_one
      { (Vp.present_frames_one
          { Vp.vpInit with queuedDmabuf := some ⟨0, 64, 64⟩ }).1 with
            queuedDmabuf := some ⟨1, 64, 64⟩ }).1.nextDmabuf =
      some ⟨1, 64, 64⟩ ∧
    (Vp.tick_take (Vp.present_frames_one
      { (Vp.present_frames_one
          { Vp.vpInit with queuedDmabuf := some ⟨0, 64, 64⟩ }).1 with
            queuedDmabuf := some ⟨1, 64, 64⟩ }).1).1 = some ⟨1, 64, 64⟩ :=
  c4_overwrite_latest { Vp.vpInit with queuedDmabuf := some ⟨0, 64, 64⟩ }
    ⟨0, 64, 64⟩ ⟨1, 64, 64⟩ rfl

/-- Claim C5: deferred free of the dmabuf-backed texture. With `n` strong
holders (the `DmabufTexture` plus derived wrappers), dropping any `k < n` of
them — the drops are symmetric, so this covers every drop order — leaves
the Vulkan image and memory untouched; the drop callback (destroy image,
free memory) runs exactly when the last holder is released. In particular,
with the `DmabufTexture` and one derived wrapper, dropping one leaves the
memory alive and dropping both frees it. -/
theorem c5_deferred_free (n k : Nat) (hk : k < n) :
    (Tex.releaseN k ⟨n, ⟨false, false⟩⟩).cleanup = ⟨false, false⟩ ∧
    (Tex.releaseN n ⟨n, ⟨false, false⟩⟩).cleanup = ⟨true, true⟩ ∧
    (Tex.releaseRef (Tex.cloneRef Tex.texture_from_raw)).cleanup =
      ⟨false, false⟩ ∧
    (Tex.releaseRef (Tex.releaseRef
      (Tex.cloneRef Tex.texture_from_raw))).cleanup = ⟨true, true⟩ := by
  refine ⟨?_, ?_, by decide, by decide⟩
  · rw [Tex.releaseN_keeps _ hk]
  · rw [Tex.releaseN_frees n (by omega)]

/-- Claim C5, witness at two holders, one dropped. -/
theorem c5_deferred_free_w :
    (Tex.releaseN 1 ⟨2, ⟨false, false⟩⟩).cleanup = ⟨false, false⟩ ∧
    (Tex.releaseN 2 ⟨2, ⟨false, false⟩⟩).cleanup = ⟨true, true⟩ ∧
    (Tex.releaseRef (Tex.cloneRef Tex.texture_from_raw)).cleanup =
      ⟨false, false⟩ ∧
    (Tex.releaseRef (Tex.releaseRef
      (Tex.cloneRef Tex.texture_from_raw))).cleanup = ⟨true, true⟩ :=
  c5_deferred_free 2 1 (by decide)

/-- Claim C6: a fresh viewport reporting widget size (0, 0) — the atomics
still hold their initial zeros — gets rounded up to the (64, 64) minimum by
the first resize check of `src/render/viewport.rs`: exactly one dmabuf
texture is created, its size is (64, 64), and the registry afterwards holds
exactly one entry, of size (64, 64). -/
theorem c6_zero_size_rounds_to_64 :
    (RVp.set_target_images_one 0 RVp.rInit).2.2 = 1 ∧
    (RVp.set_target_images_one 0 RVp.rInit).1.backBuffer = some ⟨0, 64, 64⟩ ∧
    RVp.update_gpu_images (RVp.set_target_images_one 0 RVp.rInit).1 [] =
      [(0, ⟨(64, 64)⟩)] := by
  decide

/-- Claim C7: once the widget-side liveness holder is gone (the viewport's
`widget_alive` strong count is exactly 1), one housekeeping scan removes
that viewport's state and its registry entry, and scanning again is a
no-op: the scan is idempotent and raises no error. Handle uniqueness (one
registry entry per live viewport) is assumed as in the data model. -/
theorem c7_teardown_exactly_once (w : Hk.MainWorld) (v : Hk.ViewportEntity)
    (hv : v ∈ w.viewports) (hdead : v.widgetAliveCount = 1)
    (huniq : ∀ v' ∈ w.viewports, v'.imageHandle = v.imageHandle → v' = v) :
    v ∉ (Hk.housekeep w).viewports ∧
    (∀ e ∈ (Hk.housekeep w).gpuImages, e.1 ≠ v.imageHandle) ∧
    Hk.housekeep (Hk.housekeep w) = Hk.housekeep w := by
  refine ⟨?_, ?_, ?_⟩
  · simp [Hk.housekeep, Hk.despawn_destroyed_viewports, List.mem_filter, hdead]
  · intro e he
    simp only [Hk.housekeep, Hk.cleanup_registry, List.mem_filter] at he
    obtain ⟨-, hpred⟩ := he
    rw [List.any_eq_true] at hpred
    obtain ⟨vp, hvp, heq⟩ := hpred
    simp only [Hk.despawn_destroyed_viewports, List.mem_filter] at hvp
    obtain ⟨hvpmem, halive⟩ := hvp
    intro hkey
    rw [beq_iff_eq] at heq
    have hvpv : vp = v := huniq vp hvpmem (by rw [heq, hkey])
    rw [hvpv, hdead] at halive
    simp at halive
  · have hvps : Hk.despawn_destroyed_viewports
        (Hk.despawn_destroyed_viewports w.viewports) =
        Hk.despawn_destroyed_viewports w.viewports :=
      List.filter_eq_self.mpr (fun a ha => (List.mem_filter.mp ha).2)
    have hreg : Hk.cleanup_registry (Hk.despawn_destroyed_viewports w.viewports)
        (Hk.cleanup_registry (Hk.despawn_destroyed_viewports w.viewports)
          w.gpuImages) =
        Hk.cleanup_registry (Hk.despawn_destroyed_viewports w.viewports)
          w.gpuImages :=
      List.filter_eq_self.mpr (fun a ha => (List.mem_filter.mp ha).2)
    simp only [Hk.housekeep]
    rw [hvps, hreg]

/-- Claim C7, witness: a world with one dead and one live viewport. -/
theorem c7_teardown_exactly_once_w :
    (⟨0, 0, 1⟩ : Hk.ViewportEntity) ∉
      (Hk.housekeep ⟨[⟨0, 0, 1⟩, ⟨1, 5, 2⟩],
        [(0, ⟨(64, 64)⟩), (5, ⟨(128, 64)⟩)]⟩).viewports ∧
    (∀ e ∈ (Hk.housekeep ⟨[⟨0, 0, 1⟩, ⟨1, 5, 2⟩],
        [(0, ⟨(64, 64)⟩), (5, ⟨(128, 64)⟩)]⟩).gpuImages,
      e.1 ≠ (⟨0, 0, 1⟩ : Hk.ViewportEntity).imageHandle) ∧
    Hk.housekeep (Hk.housekeep ⟨[⟨0, 0, 1⟩, ⟨1, 5, 2⟩],
        [(0, ⟨(64, 64)⟩), (5, ⟨(128, 64)⟩)]⟩) =
      Hk.housekeep ⟨[⟨0, 0, 1⟩, ⟨1, 5, 2⟩],
        [(0, ⟨(64, 64)⟩), (5, ⟨(128, 64)⟩)]⟩ :=
  c7_teardown_exactly_once
    ⟨[⟨0, 0, 1⟩, ⟨1, 5, 2⟩], [(0, ⟨(64, 64)⟩), (5, ⟨(128, 64)⟩)]⟩
    ⟨0, 0, 1⟩ (by decide) rfl (by decide)

/-- Claim C8: for every texture format outside the supported set (8-bit
RGBA, linear or sRGB), `create_dmabuf_texture` fails with the
unsupported-format error — no fallback format is picked — and the ledger of
created GPU resources is unchanged: the format is rejected before any image
or memory is created. -/
theorem c8_unsupported_format (dev : Dm.VkDevice) (width height : Nat)
    (format : Dm.TextureFormat) (ledger : Dm.GpuLedger)
    (h1 : format ≠ Dm.TextureFormat.rgba8Unorm)
    (h2 : format ≠ Dm.TextureFormat.rgba8UnormSrgb) :
    Dm.create_dmabuf_texture dev width height format ledger =
      (.error (.unsupportedFormat format), ledger) := by
  have hcc : Dm.format_to_fourcc format = none := by
    cases format <;> simp_all [Dm.format_to_fourcc]
  simp [Dm.create_dmabuf_texture, hcc]

/-- Claim C8, witness at the BGRA sRGB format. -/
theorem c8_unsupported_format_w :
    Dm.create_dmabuf_texture ⟨[⟨0, 1⟩], 0, true⟩ 64 64
      Dm.TextureFormat.bgra8UnormSrgb ⟨0, 0⟩ =
      (.error (.unsupportedFormat Dm.TextureFormat.bgra8UnormSrgb), ⟨0, 0⟩) :=
  c8_unsupported_format ⟨[⟨0, 1⟩], 0, true⟩ 64 64
    Dm.TextureFormat.bgra8UnormSrgb ⟨0, 0⟩ (by decide) (by decide)

/-- Claim C9: under any interleaving of render frames and display ticks
starting from a fresh viewport, every dmabuf held by the ready slot — and
every dmabuf the display side has ever taken — has completed its render
pass: a newly allocated back buffer is parked in the queued slot and only
`present_frames`, which runs after the render pass, promotes it to the
ready slot. -/
theorem c9_ready_implies_rendered (events : List Vp.Event) :
    (∀ d, (Vp.runEvents events Vp.frameInit).vp.nextDmabuf = some d →
      d.id ∈ (Vp.runEvents events Vp.frameInit).renderedIds) ∧
    (∀ i ∈ (Vp.runEvents events Vp.frameInit).takenIds,
      i ∈ (Vp.runEvents events Vp.frameInit).renderedIds) := by
  have h := Vp.slotInv_run events Vp.slotInv_init
  exact ⟨h.1, h.2.2⟩

/-- Claim C9, witness: after one frame the ready dmabuf has been rendered,
and after a frame plus a tick the taken dmabuf has been rendered. -/
theorem c9_ready_implies_rendered_w :
    (0 : Nat) ∈ (Vp.runEvents [Vp.Event.frame (5, 5)] Vp.frameInit).renderedIds ∧
    (0 : Nat) ∈ (Vp.runEvents [Vp.Event.frame (5, 5), Vp.Event.tick]
      Vp.frameInit).renderedIds :=
  ⟨(c9_ready_implies_rendered [Vp.Event.frame (5, 5)]).1 ⟨0, 5, 5⟩ (by decide),
   (c9_ready_implies_rendered [Vp.Event.frame (5, 5), Vp.Event.tick]).2 0
     (by decide)⟩

/-- Claim C10, counterexample: if the widget reports exactly the sentinel
(u32::MAX, u32::MAX), the first resize check compares equal to the
initialised `old_widget_size` sentinel and performs no allocation — so the
first check does not allocate for literally every reported size. -/
theorem c10_sentinel_cex :
    (Vp.set_target_images_ok 0
      { Vp.vpInit with widgetSize := (u32Max, u32Max) }).2.2 = 0 := by
  decide

/-- Claim C10, amended: for every reported widget size in the u32 range
other than the sentinel (u32::MAX, u32::MAX) itself — including (0, 0) when
nothing has been reported yet — the first resize check of a newly created
viewport performs exactly one allocation, because `old_widget_size` is
initialised to the sentinel; and the dimensions passed to texture creation
are clamped to at least 1 on each axis. -/
theorem c10_first_check_always_allocates (w h : Nat)
    (hw : w ≤ u32Max) (hh : h ≤ u32Max) (hne : w ≠ u32Max ∨ h ≠ u32Max) :
    (Vp.set_target_images_ok 0 { Vp.vpInit with widgetSize := (w, h) }).2.2 =
      1 ∧
    (Vp.set_target_images_ok 0
      { Vp.vpInit with widgetSize := (w, h) }).1.backBuffer =
      some ⟨0, max w 1, max h 1⟩ ∧
    1 ≤ max w 1 ∧ 1 ≤ max h 1 := by
  refine ⟨?_, ?_, le_max_right w 1, le_max_right h 1⟩ <;>
  · simp only [Vp.set_target_images_ok, Vp.vpInit, Vp.texture_size]
    rw [if_pos hne]

/-- Claim C10, witness at reported size (0, 0). -/
theorem c10_first_check_always_allocates_w :
    (Vp.set_target_images_ok 0 { Vp.vpInit with widgetSize := (0, 0) }).2.2 =
      1 ∧
    (Vp.set_target_images_ok 0
      { Vp.vpInit with widgetSize := (0, 0) }).1.backBuffer =
      some ⟨0, max 0 1, max 0 1⟩ ∧
    1 ≤ max 0 1 ∧ 1 ≤ max 0 1 :=
  c10_first_check_always_allocates 0 0 (by decide) (by decide)
    (Or.inl (by decide))

end BevyGtk
